import Mathlib

/-!
Shallow embedding of the ez-audio playback engine
(src/cc/AudioInterface.cc, src/cc/AudioPlayer.cc, src/cc/AudioPlayer.h).

The engine keeps a registry `std::unordered_map<size_t, SoundClip*>` inside an
`AudioContext`; each `SoundClip` owns an `ma_device` (output-device binding),
an `ma_decoder` (streaming decode source) and a saved `ma_device_config`.
Control-plane operations look clips up with `unordered_map::at`, which raises a
lookup failure on a missing id; we model that fallible lookup with
`Except Err`.  Gain (`masterVolumeFactor`, a C float) is modelled as `Rat`;
frame counts and sample rates (`ma_uint64`, `ma_uint32`) are modelled as `Nat`
(no arithmetic here comes near the 2^64 / 2^32 wrap).  C++ unsigned division,
undefined on a zero divisor, is modelled by `cppUDiv` returning `none` there.
Backend outcomes that depend on the host (whether `ma_decoder_init_file` or
`ma_device_init` succeeds) are passed in as explicit parameters.
-/

namespace EzAudio

/-- Streaming decoder state (`ma_decoder`): a read cursor into a stream of
`length` PCM frames, plus the native sample rate reported by the decoder. -/
structure Decoder where
  position : Nat
  length : Nat
  outputSampleRate : Nat
deriving DecidableEq, Repr

/-- `ma_decoder_read_pcm_frames`: reads up to `frames` frames, returning how
many were actually read (fewer than requested exactly at end of stream) and
the advanced decoder. -/
def Decoder.read (d : Decoder) (frames : Nat) : Nat × Decoder :=
  let n := min frames (d.length - d.position)
  (n, { d with position := d.position + n })

/-- `ma_decoder_seek_to_pcm_frame(decoder, 0)`. -/
def Decoder.seekToStart (d : Decoder) : Decoder :=
  { d with position := 0 }

/-- Output-device binding state (`ma_device`): whether playback is started,
the master volume factor, the configured sample rate, and which device id the
binding is currently open against (`none` = no live binding). -/
structure MaDevice where
  started : Bool
  masterVolumeFactor : Rat
  sampleRate : Nat
  boundTo : Option Nat
deriving DecidableEq, Repr

/-- A `SoundClip`: device binding, decoder, caller-chosen id, the device
descriptor reference (`audioDevice`), and the device id captured in the saved
`ma_device_config` at load time (`deviceConfig.playback.pDeviceID` keeps
pointing at the descriptor passed to `load`). -/
structure SoundClip where
  device : MaDevice
  decoder : Decoder
  id : Nat
  audioDevice : Nat
  configuredDeviceId : Nat
deriving DecidableEq, Repr

/-- The voice registry `std::unordered_map<size_t, SoundClip*>`, modelled as
an association list with at most one entry per id. -/
abbrev Registry := List (Nat × SoundClip)

/-- Map lookup (`find` / the lookup done by `at`). -/
def Registry.findClip : Registry → Nat → Option SoundClip
  | [], _ => none
  | (i, c) :: rest, id => if i = id then some c else Registry.findClip rest id

/-- `unordered_map::insert({id, clip})`: inserts only when the key is absent;
a duplicate key leaves the map unchanged (no overwrite). -/
def Registry.insertNoReplace (r : Registry) (id : Nat) (c : SoundClip) : Registry :=
  match r.findClip id with
  | some _ => r
  | none => (id, c) :: r

/-- `unordered_map::erase(id)`. -/
def Registry.eraseId : Registry → Nat → Registry
  | [], _ => []
  | (i, c) :: rest, id =>
    if i = id then Registry.eraseId rest id else (i, c) :: Registry.eraseId rest id

/-- In-place mutation of the clip stored under `id` (the C++ code mutates
through the `SoundClip*` held in the map). -/
def Registry.updateClip : Registry → Nat → SoundClip → Registry
  | [], _, _ => []
  | (i, c) :: rest, id, c2 =>
    if i = id then (i, c2) :: rest else (i, c) :: Registry.updateClip rest id c2

/-- Engine context: backend context validity flag plus the registry. -/
structure AudioContext where
  soundClips : Registry
  result : Bool
deriving DecidableEq, Repr

/-- Error outcomes of the control-plane calls.  `voiceNotFound` is the lookup
failure raised by `unordered_map::at` on an unknown id; the two load failures
are the distinct return codes of `load`. -/
inductive Err where
  | voiceNotFound
  | decodeOpenFailed
  | deviceBindFailed
deriving DecidableEq, Repr

/-- C++ unsigned integer division: undefined (`none`) on divisor 0. -/
def cppUDiv (a b : Nat) : Option Nat :=
  if b = 0 then none else some (a / b)

/-! ### Control-plane operations (AudioInterface.cc) -/

/-- `setVolume(id, context, value)`: `at(id)->device.masterVolumeFactor = value`. -/
def setVolume (id : Nat) (ctx : AudioContext) (value : Rat) : Except Err AudioContext :=
  match ctx.soundClips.findClip id with
  | none => .error .voiceNotFound
  | some c =>
    let c2 := { c with device := { c.device with masterVolumeFactor := value } }
    .ok { ctx with soundClips := ctx.soundClips.updateClip id c2 }

/-- `getVolume(id, context)`. -/
def getVolume (id : Nat) (ctx : AudioContext) : Except Err Rat :=
  match ctx.soundClips.findClip id with
  | none => .error .voiceNotFound
  | some c => .ok c.device.masterVolumeFactor

/-- `play(id, context)`: starts the device if it is not already started
(starting an already-started device is skipped, so the net effect on the
started flag is the same). -/
def play (id : Nat) (ctx : AudioContext) : Except Err AudioContext :=
  match ctx.soundClips.findClip id with
  | none => .error .voiceNotFound
  | some c =>
    let c2 := { c with device := { c.device with started := true } }
    .ok { ctx with soundClips := ctx.soundClips.updateClip id c2 }

/-- `reset(id, context)`: `ma_device_stop`, then `masterVolumeFactor = 0`,
then `ma_decoder_seek_to_pcm_frame(decoder, 0)`. -/
def reset (id : Nat) (ctx : AudioContext) : Except Err AudioContext :=
  match ctx.soundClips.findClip id with
  | none => .error .voiceNotFound
  | some c =>
    let c2 :=
      { c with
          device := { c.device with started := false, masterVolumeFactor := 0 }
          decoder := c.decoder.seekToStart }
    .ok { ctx with soundClips := ctx.soundClips.updateClip id c2 }

/-- `stop(id, context)`: `ma_device_stop`. -/
def stop (id : Nat) (ctx : AudioContext) : Except Err AudioContext :=
  match ctx.soundClips.findClip id with
  | none => .error .voiceNotFound
  | some c =>
    let c2 := { c with device := { c.device with started := false } }
    .ok { ctx with soundClips := ctx.soundClips.updateClip id c2 }

/-- `isPlaying(id, context)`: `ma_device_is_started`. -/
def isPlaying (id : Nat) (ctx : AudioContext) : Except Err Bool :=
  match ctx.soundClips.findClip id with
  | none => .error .voiceNotFound
  | some c => .ok c.device.started

/-- `getDuration(id, context)`: `duration / (sampleRate / 1000)` in unsigned
64-bit arithmetic; the division is undefined when `sampleRate / 1000`
truncates to 0. -/
def getDuration (id : Nat) (ctx : AudioContext) : Except Err (Option Nat) :=
  match ctx.soundClips.findClip id with
  | none => .error .voiceNotFound
  | some c => .ok (cppUDiv c.decoder.length (c.device.sampleRate / 1000))

/-- `removeSound(id, context)`: uninits device and decoder of `at(id)`, frees
the clip, then erases the registry entry. -/
def removeSound (id : Nat) (ctx : AudioContext) : Except Err AudioContext :=
  match ctx.soundClips.findClip id with
  | none => .error .voiceNotFound
  | some _ => .ok { ctx with soundClips := ctx.soundClips.eraseId id }

/-- `setAudioDevice(id, context, device)`: stores the new descriptor
reference, then unconditionally `ma_device_uninit`s the existing binding, then
re-runs `ma_device_init` with the saved `deviceConfig` (whose `pDeviceID`
still points at the descriptor captured at load time) and ignores the result.
`rebindOk` is the outcome of that `ma_device_init` call; no failure is ever
reported to the caller. -/
def setAudioDevice (id : Nat) (ctx : AudioContext) (newDev : Nat) (rebindOk : Bool) :
    Except Err AudioContext :=
  match ctx.soundClips.findClip id with
  | none => .error .voiceNotFound
  | some c =>
    let devGone : MaDevice := { c.device with boundTo := none, started := false }
    let devAfter : MaDevice :=
      if rebindOk then { devGone with boundTo := some c.configuredDeviceId } else devGone
    let c2 := { c with audioDevice := newDev, device := devAfter }
    .ok { ctx with soundClips := ctx.soundClips.updateClip id c2 }

/-- Resource events while running `load`, used to state that a failed `load`
leaves no partial state. -/
inductive ResourceEvent where
  | decoderOpen
  | decoderClose
  | deviceOpen
  | deviceClose
deriving DecidableEq, Repr

/-- Net number of decode sources still open after the events. -/
def decoderBalance (evs : List ResourceEvent) : Int :=
  evs.foldl
    (fun acc e =>
      acc + match e with
        | .decoderOpen => 1
        | .decoderClose => -1
        | _ => 0) 0

/-- Net number of device bindings still open after the events. -/
def deviceBalance (evs : List ResourceEvent) : Int :=
  evs.foldl
    (fun acc e =>
      acc + match e with
        | .deviceOpen => 1
        | .deviceClose => -1
        | _ => 0) 0

/-- Outcome of `load`: the C return code, the context afterwards, and the
resource events the call performed. -/
structure LoadOutcome where
  code : Int
  ctx : AudioContext
  events : List ResourceEvent
deriving DecidableEq, Repr

/-- `load(id, context, path, device)`.  `decodeResult` is the outcome of
`ma_decoder_init_file(path, ...)` (`none` = open failed), `bindOk` the outcome
of `ma_device_init`, `devId` the id of the passed device descriptor.
On a decode-open failure the clip is freed and `-1` returned (no resource was
acquired); on a device-bind failure the already-opened decoder is uninited
before `-2` is returned; on success the volume is set to 1, the clip is
registered via `unordered_map::insert` (which does not replace an existing
entry) and `0` is returned. -/
def load (id : Nat) (ctx : AudioContext) (decodeResult : Option Decoder)
    (bindOk : Bool) (devId : Nat) : LoadOutcome :=
  match decodeResult with
  | none => { code := -1, ctx := ctx, events := [] }
  | some dec =>
    if bindOk then
      let clip : SoundClip :=
        { id := id
          audioDevice := devId
          configuredDeviceId := devId
          decoder := dec
          device :=
            { started := false
              masterVolumeFactor := 1
              sampleRate := dec.outputSampleRate
              boundTo := some devId } }
      { code := 0
        ctx := { ctx with soundClips := ctx.soundClips.insertNoReplace id clip }
        events := [.decoderOpen, .deviceOpen] }
    else
      { code := -2, ctx := ctx, events := [.decoderOpen, .decoderClose] }

/-- Playback-device descriptor as enumerated by the backend
(`ma_device_info`). -/
structure MaDeviceInfo where
  devId : Nat
  name : String
  isDefault : Bool
deriving DecidableEq, Repr

/-- `getDefaultAudioDevice(context)`: scans the enumerated playback devices in
order and returns the first one flagged default; if none is flagged it falls
back to `playbackDeviceInfos[0]` (undefined, `none`, when the list is empty). -/
def getDefaultAudioDevice (infos : List MaDeviceInfo) : Option MaDeviceInfo :=
  match infos.find? (fun d => d.isDefault) with
  | some d => some d
  | none => infos.head?

/-! ### Real-time path (AudioPlayer.cc) -/

/-- Result of one `data_callback` invocation: the clip state when the callback
returns, and the gain captured by a reset task spawned during the invocation
(`none` when no end of stream was hit). -/
structure CallbackOutcome where
  clip : SoundClip
  spawned : Option Rat
deriving DecidableEq, Repr

/-- `data_callback(device, output, input, framesToRead)`: reads from the
decoder; on a short read (end of stream) it captures the current gain, zeroes
`masterVolumeFactor`, seeks the decoder back to frame 0 in the callback
itself, and spawns the detached reset task with the captured gain. -/
def data_callback (framesToRead : Nat) (clip : SoundClip) : CallbackOutcome :=
  let rd := clip.decoder.read framesToRead
  if rd.1 < framesToRead then
    { clip :=
        { clip with
            device := { clip.device with masterVolumeFactor := 0 }
            decoder := rd.2.seekToStart }
      spawned := some clip.device.masterVolumeFactor }
  else
    { clip := { clip with decoder := rd.2 }, spawned := none }

/-- The body of the detached thread spawned by `resetDevice`, run under the
clip's mutex: `ma_device_stop`, then `ma_decoder_seek_to_pcm_frame(.., 0)`,
then restore `masterVolumeFactor` to the captured gain.  The mutex makes the
body atomic with respect to any other reset task for the same clip, so it is
modelled as one atomic state transformation. -/
def resetTask (oldVolume : Rat) (clip : SoundClip) : SoundClip :=
  let afterStop := { clip with device := { clip.device with started := false } }
  let afterSeek := { afterStop with decoder := afterStop.decoder.seekToStart }
  { afterSeek with device := { afterSeek.device with masterVolumeFactor := oldVolume } }

/-! ### Registry lemmas -/

theorem findClip_updateClip (r : Registry) (id : Nat) (c c2 : SoundClip)
    (h : r.findClip id = some c) :
    (r.updateClip id c2).findClip id = some c2 := by
  induction r with
  | nil => simp [Registry.findClip] at h
  | cons p rest ih =>
    obtain ⟨i, cc⟩ := p
    by_cases hi : i = id
    · simp [Registry.updateClip, Registry.findClip, hi]
    · simp [Registry.updateClip, Registry.findClip, hi] at h ⊢
      exact ih h

theorem findClip_eraseId (r : Registry) (id : Nat) :
    (r.eraseId id).findClip id = none := by
  induction r with
  | nil => rfl
  | cons p rest ih =>
    obtain ⟨i, c⟩ := p
    by_cases hi : i = id
    · simp [Registry.eraseId, hi, ih]
    · simp [Registry.eraseId, Registry.findClip, hi, ih]

theorem insertNoReplace_found (r : Registry) (id : Nat) (c c2 : SoundClip)
    (h : r.findClip id = some c) :
    r.insertNoReplace id c2 = r := by
  unfold Registry.insertNoReplace
  rw [h]

/-! ### Concrete fixtures -/

/-- A clip mid-stream: 10-frame stream, read cursor at frame 5, playing at
gain 1, bound to device 0. -/
def clip0 : SoundClip :=
  { id := 1
    audioDevice := 0
    configuredDeviceId := 0
    decoder := { position := 5, length := 10, outputSampleRate := 48000 }
    device :=
      { started := true, masterVolumeFactor := 1, sampleRate := 48000, boundTo := some 0 } }

/-! ### Claims about the real-time path -/

/-- Claim C1, as stated, is false: at `clip0` with `framesToRead = 8` the read
is short (5 of 8 frames), and the callback does capture the gain, zero it and
spawn the reset task without stopping the device — but it also performs the
decoder seek synchronously, leaving the read cursor at frame 0 instead of the
advanced position `5 + 5`. -/
theorem callback_no_sync_seek_cex :
    ¬ ((data_callback 8 clip0).spawned = some clip0.device.masterVolumeFactor ∧
       (data_callback 8 clip0).clip.device.masterVolumeFactor = 0 ∧
       (data_callback 8 clip0).clip.decoder.position =
         clip0.decoder.position + (clip0.decoder.read 8).1 ∧
       (data_callback 8 clip0).clip.device.started = clip0.device.started) := by
  decide

/-- Claim C1 amended: on a short read the callback captures the current gain
into the spawned reset task, zeroes the voice's gain, performs the decoder
seek to frame 0 synchronously, and does not stop the device synchronously. -/
theorem callback_eos_behavior (clip : SoundClip) (framesToRead : Nat)
    (h : clip.decoder.length - clip.decoder.position < framesToRead) :
    (data_callback framesToRead clip).spawned = some clip.device.masterVolumeFactor ∧
    (data_callback framesToRead clip).clip.device.masterVolumeFactor = 0 ∧
    (data_callback framesToRead clip).clip.decoder.position = 0 ∧
    (data_callback framesToRead clip).clip.device.started = clip.device.started := by
  have hmin : min framesToRead (clip.decoder.length - clip.decoder.position) =
      clip.decoder.length - clip.decoder.position := min_eq_right (le_of_lt h)
  simp [data_callback, Decoder.read, Decoder.seekToStart, hmin, h]

/-- Witness for `callback_eos_behavior` at `clip0`, `framesToRead = 8`. -/
theorem callback_eos_behavior_witness :
    clip0.decoder.length - clip0.decoder.position < 8 ∧
    ((data_callback 8 clip0).spawned = some clip0.device.masterVolumeFactor ∧
     (data_callback 8 clip0).clip.device.masterVolumeFactor = 0 ∧
     (data_callback 8 clip0).clip.decoder.position = 0 ∧
     (data_callback 8 clip0).clip.device.started = clip0.device.started) :=
  ⟨by decide, callback_eos_behavior clip0 8 (by decide)⟩

/-- Claim C2: after a short read the callback spawns a reset task carrying the
pre-exhaustion gain, and once that task runs (stop, then seek to frame 0, then
restore the captured gain, atomically under the clip's mutex) the device is
stopped, the gain equals its pre-exhaustion value and the decoder position is
frame 0. -/
theorem eos_reset_restores (clip : SoundClip) (framesToRead : Nat)
    (h : clip.decoder.length - clip.decoder.position < framesToRead) :
    (data_callback framesToRead clip).spawned = some clip.device.masterVolumeFactor ∧
    (resetTask clip.device.masterVolumeFactor
        (data_callback framesToRead clip).clip).device.started = false ∧
    (resetTask clip.device.masterVolumeFactor
        (data_callback framesToRead clip).clip).device.masterVolumeFactor =
      clip.device.masterVolumeFactor ∧
    (resetTask clip.device.masterVolumeFactor
        (data_callback framesToRead clip).clip).decoder.position = 0 := by
  have hmin : min framesToRead (clip.decoder.length - clip.decoder.position) =
      clip.decoder.length - clip.decoder.position := min_eq_right (le_of_lt h)
  simp [data_callback, resetTask, Decoder.read, Decoder.seekToStart, hmin, h]

/-- Witness for `eos_reset_restores` at `clip0`, `framesToRead = 8`. -/
theorem eos_reset_restores_witness :
    clip0.decoder.length - clip0.decoder.position < 8 ∧
    ((data_callback 8 clip0).spawned = some clip0.device.masterVolumeFactor ∧
     (resetTask clip0.device.masterVolumeFactor
        (data_callback 8 clip0).clip).device.started = false ∧
     (resetTask clip0.device.masterVolumeFactor
        (data_callback 8 clip0).clip).device.masterVolumeFactor =
       clip0.device.masterVolumeFactor ∧
     (resetTask clip0.device.masterVolumeFactor
        (data_callback 8 clip0).clip).decoder.position = 0) :=
  ⟨by decide, eos_reset_restores clip0 8 (by decide)⟩

/-- A context whose registry holds `clip0` under id 1. -/
def ctx1 : AudioContext := { soundClips := [(1, clip0)], result := true }

/-- An initialized context with an empty registry. -/
def ctxEmpty : AudioContext := { soundClips := [], result := true }

/-- A freshly opened 6-frame decoder at 48000 Hz. -/
def decFresh : Decoder := { position := 0, length := 6, outputSampleRate := 48000 }

/-! ### Claims about load -/

/-- Claim C3: a second `load` under an id that is still registered leaves the
registry entirely unchanged — the first clip's entry (and with it its device
binding) is neither replaced nor disturbed, whatever the duplicate load's
decode and bind outcomes are. -/
theorem duplicate_load_preserves_first (ctx : AudioContext) (id : Nat) (c0 : SoundClip)
    (decodeResult : Option Decoder) (bindOk : Bool) (devId : Nat)
    (h : ctx.soundClips.findClip id = some c0) :
    (load id ctx decodeResult bindOk devId).ctx.soundClips = ctx.soundClips ∧
    (load id ctx decodeResult bindOk devId).ctx.soundClips.findClip id = some c0 := by
  have hreg : (load id ctx decodeResult bindOk devId).ctx.soundClips = ctx.soundClips := by
    cases decodeResult with
    | none => rfl
    | some dec =>
      by_cases hb : bindOk
      · simp [load, hb, insertNoReplace_found _ _ _ _ h]
      · simp [load, hb]
  exact ⟨hreg, by rw [hreg]; exact h⟩

/-- Witness for `duplicate_load_preserves_first`: a duplicate successful load
of id 1 into `ctx1`. -/
theorem duplicate_load_preserves_first_witness :
    ctx1.soundClips.findClip 1 = some clip0 ∧
    ((load 1 ctx1 (some decFresh) true 3).ctx.soundClips = ctx1.soundClips ∧
     (load 1 ctx1 (some decFresh) true 3).ctx.soundClips.findClip 1 = some clip0) :=
  ⟨by decide, duplicate_load_preserves_first ctx1 1 clip0 (some decFresh) true 3 (by decide)⟩

/-- Claim C4: `load` returns the distinct codes -1 on a decode-open failure
and -2 on a device-bind failure; in both failure cases the context (hence the
registry) is unchanged and the resource events balance out — in the -2 case
the opened decode source is closed before the error is returned. -/
theorem load_failure_clean (id : Nat) (ctx : AudioContext) (dec : Decoder)
    (bindOk : Bool) (devId : Nat) :
    (load id ctx none bindOk devId).code = -1 ∧
    (load id ctx none bindOk devId).ctx = ctx ∧
    decoderBalance (load id ctx none bindOk devId).events = 0 ∧
    deviceBalance (load id ctx none bindOk devId).events = 0 ∧
    (load id ctx (some dec) false devId).code = -2 ∧
    (load id ctx (some dec) false devId).ctx = ctx ∧
    decoderBalance (load id ctx (some dec) false devId).events = 0 ∧
    deviceBalance (load id ctx (some dec) false devId).events = 0 ∧
    (-1 : Int) ≠ -2 := by
  refine ⟨?_, ?_, ?_, ?_, ?_, ?_, ?_, ?_, by decide⟩ <;>
    simp [load, decoderBalance, deviceBalance]

/-! ### Claims about lookup failures -/

/-- Claim C5: every control-plane operation on an id absent from the registry
surfaces the lookup failure `voiceNotFound` instead of silently doing
nothing. -/
theorem absent_id_ops_error (ctx : AudioContext) (id : Nat)
    (h : ctx.soundClips.findClip id = none) (v : Rat) (nd : Nat) (b : Bool) :
    setVolume id ctx v = .error .voiceNotFound ∧
    getVolume id ctx = .error .voiceNotFound ∧
    play id ctx = .error .voiceNotFound ∧
    stop id ctx = .error .voiceNotFound ∧
    reset id ctx = .error .voiceNotFound ∧
    removeSound id ctx = .error .voiceNotFound ∧
    getDuration id ctx = .error .voiceNotFound ∧
    isPlaying id ctx = .error .voiceNotFound ∧
    setAudioDevice id ctx nd b = .error .voiceNotFound := by
  refine ⟨?_, ?_, ?_, ?_, ?_, ?_, ?_, ?_, ?_⟩ <;>
    simp [setVolume, getVolume, play, stop, reset, removeSound, getDuration,
      isPlaying, setAudioDevice, h]

/-- Witness for `absent_id_ops_error` at the empty registry, id 1. -/
theorem absent_id_ops_error_witness :
    ctxEmpty.soundClips.findClip 1 = none ∧
    (setVolume 1 ctxEmpty 2 = .error .voiceNotFound ∧
     getVolume 1 ctxEmpty = .error .voiceNotFound ∧
     play 1 ctxEmpty = .error .voiceNotFound ∧
     stop 1 ctxEmpty = .error .voiceNotFound ∧
     reset 1 ctxEmpty = .error .voiceNotFound ∧
     removeSound 1 ctxEmpty = .error .voiceNotFound ∧
     getDuration 1 ctxEmpty = .error .voiceNotFound ∧
     isPlaying 1 ctxEmpty = .error .voiceNotFound ∧
     setAudioDevice 1 ctxEmpty 0 true = .error .voiceNotFound) :=
  ⟨rfl, absent_id_ops_error ctxEmpty 1 rfl 2 0 true⟩

/-! ### Claims about rebinding -/

/-- Claim C6, as stated, is false: rebinding registered voice 1 of `ctx1`
(previously bound to device 0) with a failing `ma_device_init` returns
success (`ok`, no error surfaced) and leaves the voice with no device binding
at all — the previous binding was uninited before the rebind attempt. -/
theorem rebind_failure_cex :
    ctx1.soundClips.findClip 1 = some clip0 ∧
    clip0.device.boundTo = some 0 ∧
    (setAudioDevice 1 ctx1 5 false).toOption.isSome = true ∧
    ((setAudioDevice 1 ctx1 5 false).toOption.bind
        (fun ctx2 => (ctx2.soundClips.findClip 1).map (fun c2 => c2.device.boundTo)))
      = some none := by
  decide

/-- Claim C6 amended: a failed rebind is not reported to the caller
(`setAudioDevice` surfaces no device-bind error), and because the previous
binding is destroyed before the rebind is attempted, the voice is left with no
device binding rather than its previous one. -/
theorem rebind_failure_behavior (ctx : AudioContext) (id : Nat) (c : SoundClip)
    (newDev : Nat) (h : ctx.soundClips.findClip id = some c) :
    (setAudioDevice id ctx newDev false).toOption.isSome = true ∧
    ((setAudioDevice id ctx newDev false).toOption.bind
        (fun ctx2 => (ctx2.soundClips.findClip id).map (fun c2 => c2.device.boundTo)))
      = some none := by
  have h2 := findClip_updateClip ctx.soundClips id c
    { c with
        audioDevice := newDev
        device := { c.device with boundTo := none, started := false } } h
  simp [setAudioDevice, h, Except.toOption, h2]

/-- Witness for `rebind_failure_behavior` at `ctx1`, voice 1. -/
theorem rebind_failure_behavior_witness :
    ctx1.soundClips.findClip 1 = some clip0 ∧
    ((setAudioDevice 1 ctx1 5 false).toOption.isSome = true ∧
     ((setAudioDevice 1 ctx1 5 false).toOption.bind
        (fun ctx2 => (ctx2.soundClips.findClip 1).map (fun c2 => c2.device.boundTo)))
       = some none) :=
  ⟨by decide, rebind_failure_behavior ctx1 1 clip0 5 (by decide)⟩

/-! ### Claims about duration -/

/-- A clip holding exactly `sampleRate * 2` frames at 44100 Hz. -/
def clip44 : SoundClip :=
  { id := 2
    audioDevice := 0
    configuredDeviceId := 0
    decoder := { position := 0, length := 88200, outputSampleRate := 44100 }
    device :=
      { started := false, masterVolumeFactor := 1, sampleRate := 44100, boundTo := some 0 } }

/-- A context holding `clip44` under id 2. -/
def ctx44 : AudioContext := { soundClips := [(2, clip44)], result := true }

/-- Claim C7, as stated, is false: voice 2 of `ctx44` holds exactly
`sampleRate * 2` frames at 44100 Hz, yet `getDuration` returns 2004
milliseconds, not 2000, because the divisor `44100 / 1000` truncates to 44. -/
theorem duration_not_2000_cex :
    ctx44.soundClips.findClip 2 = some clip44 ∧
    clip44.decoder.length = clip44.device.sampleRate * 2 ∧
    (getDuration 2 ctx44).toOption = some (some 2004) ∧
    (getDuration 2 ctx44).toOption ≠ some (some 2000) := by
  refine ⟨by decide, by decide, rfl, by decide⟩

/-- Claim C7 amended: `getDuration` computes
`framesTotal / (sampleRate / 1000)` with truncating division, and for every
sample rate that is a positive multiple of 1000 a clip of exactly
`sampleRate * 2` frames yields 2000 milliseconds. -/
theorem duration_2000_of_multiple (ctx : AudioContext) (id : Nat) (c : SoundClip)
    (k : Nat) (hk : 0 < k) (h : ctx.soundClips.findClip id = some c)
    (hsr : c.device.sampleRate = 1000 * k)
    (hlen : c.decoder.length = 2 * c.device.sampleRate) :
    getDuration id ctx = .ok (some 2000) := by
  have hdiv : 1000 * k / 1000 = k := Nat.mul_div_cancel_left k (by norm_num)
  have hk0 : k ≠ 0 := Nat.pos_iff_ne_zero.mp hk
  have hres : 2 * (1000 * k) / k = 2000 := by
    have h2 : 2 * (1000 * k) = 2000 * k := by ring
    rw [h2, Nat.mul_div_cancel _ hk]
  simp [getDuration, h, cppUDiv, hsr, hlen, hdiv, hk0, hres]

/-- A clip holding exactly `sampleRate * 2` frames at 48000 Hz. -/
def clip48 : SoundClip :=
  { id := 3
    audioDevice := 0
    configuredDeviceId := 0
    decoder := { position := 0, length := 96000, outputSampleRate := 48000 }
    device :=
      { started := false, masterVolumeFactor := 1, sampleRate := 48000, boundTo := some 0 } }

/-- A context holding `clip48` under id 3. -/
def ctx48 : AudioContext := { soundClips := [(3, clip48)], result := true }

/-- Witness for `duration_2000_of_multiple` at `ctx48`, voice 3, k = 48. -/
theorem duration_2000_of_multiple_witness :
    (0 < 48 ∧ ctx48.soundClips.findClip 3 = some clip48 ∧
     clip48.device.sampleRate = 1000 * 48 ∧
     clip48.decoder.length = 2 * clip48.device.sampleRate) ∧
    getDuration 3 ctx48 = .ok (some 2000) :=
  ⟨⟨by decide, by decide, by decide, by decide⟩,
   duration_2000_of_multiple ctx48 3 clip48 48 (by decide) (by decide) (by decide)
     (by decide)⟩

/-- A clip whose device sample rate is 800 Hz, below 1000. -/
def clip800 : SoundClip :=
  { id := 4
    audioDevice := 0
    configuredDeviceId := 0
    decoder := { position := 0, length := 1600, outputSampleRate := 800 }
    device :=
      { started := false, masterVolumeFactor := 1, sampleRate := 800, boundTo := some 0 } }

/-- A context holding `clip800` under id 4. -/
def ctx800 : AudioContext := { soundClips := [(4, clip800)], result := true }

/-- Claim C10: for a registered voice whose device sample rate is below 1000,
the divisor `sampleRate / 1000` truncates to 0 and `getDuration` performs a
division by zero (undefined in the C++ unsigned arithmetic, `none` here). -/
theorem duration_div_by_zero (ctx : AudioContext) (id : Nat) (c : SoundClip)
    (h : ctx.soundClips.findClip id = some c) (hsr : c.device.sampleRate < 1000) :
    c.device.sampleRate / 1000 = 0 ∧ getDuration id ctx = .ok none := by
  have hz : c.device.sampleRate / 1000 = 0 := Nat.div_eq_of_lt hsr
  exact ⟨hz, by simp [getDuration, h, cppUDiv, hz]⟩

/-- Witness for `duration_div_by_zero` at `ctx800`, voice 4. -/
theorem duration_div_by_zero_witness :
    (ctx800.soundClips.findClip 4 = some clip800 ∧ clip800.device.sampleRate < 1000) ∧
    (clip800.device.sampleRate / 1000 = 0 ∧ getDuration 4 ctx800 = .ok none) :=
  ⟨⟨by decide, by decide⟩, duration_div_by_zero ctx800 4 clip800 (by decide) (by decide)⟩

/-! ### Claim about reset -/

/-- Claim C8: `reset` on a registered voice stops device playback, leaves the
gain at 0 and leaves the decoder position at frame 0, whatever the prior
playback state was. -/
theorem reset_state (ctx : AudioContext) (id : Nat) (c : SoundClip)
    (h : ctx.soundClips.findClip id = some c) :
    (reset id ctx).toOption.isSome = true ∧
    ((reset id ctx).toOption.bind
        (fun ctx2 => (ctx2.soundClips.findClip id).map
          (fun c2 => (c2.device.started, c2.device.masterVolumeFactor, c2.decoder.position))))
      = some (false, 0, 0) := by
  have h2 := findClip_updateClip ctx.soundClips id c
    { c with
        device := { c.device with started := false, masterVolumeFactor := 0 }
        decoder := c.decoder.seekToStart } h
  simp [Decoder.seekToStart] at h2
  simp [reset, h, Except.toOption, h2, Decoder.seekToStart]

/-- Witness for `reset_state` at `ctx1`, voice 1 (playing at gain 1,
mid-stream). -/
theorem reset_state_witness :
    ctx1.soundClips.findClip 1 = some clip0 ∧
    ((reset 1 ctx1).toOption.isSome = true ∧
     ((reset 1 ctx1).toOption.bind
        (fun ctx2 => (ctx2.soundClips.findClip 1).map
          (fun c2 => (c2.device.started, c2.device.masterVolumeFactor, c2.decoder.position))))
       = some (false, 0, 0)) :=
  ⟨by decide, reset_state ctx1 1 clip0 (by decide)⟩

/-! ### Claim about default-device lookup -/

/-- Claim C9: on a backend enumerating at least one playback device,
`getDefaultAudioDevice` returns a device (never an error); when some device is
flagged default the returned device is flagged default, and when none is it
returns the first enumerated device. -/
theorem default_device_fallback (infos : List MaDeviceInfo) (hne : infos ≠ []) :
    (getDefaultAudioDevice infos).isSome = true ∧
    ((infos.any fun d => d.isDefault) = true →
      (getDefaultAudioDevice infos).all (fun d => d.isDefault) = true) ∧
    ((infos.any fun d => d.isDefault) = false →
      getDefaultAudioDevice infos = infos.head?) := by
  have hhead : infos.head?.isSome = true := by
    cases infos with
    | nil => exact absurd rfl hne
    | cons a t => rfl
  refine ⟨?_, ?_, ?_⟩
  · unfold getDefaultAudioDevice
    cases hf : infos.find? (fun d => d.isDefault) with
    | some d => rfl
    | none => exact hhead
  · intro hany
    unfold getDefaultAudioDevice
    cases hf : infos.find? (fun d => d.isDefault) with
    | some d =>
      have hpd := List.find?_some hf
      simp [Option.all, hpd]
    | none =>
      rw [List.find?_eq_none] at hf
      rw [List.any_eq_true] at hany
      obtain ⟨d, hd, hpd⟩ := hany
      exact absurd hpd (hf d hd)
  · intro hany
    unfold getDefaultAudioDevice
    cases hf : infos.find? (fun d => d.isDefault) with
    | none => rfl
    | some d =>
      have hpd := List.find?_some hf
      have hmem := List.mem_of_find?_eq_some hf
      have htrue : (infos.any fun d => d.isDefault) = true :=
        List.any_eq_true.mpr ⟨d, hmem, hpd⟩
      rw [htrue] at hany
      exact Bool.noConfusion hany

/-- An enumeration with no device flagged default followed by one where the
second device is flagged default. -/
def infos0 : List MaDeviceInfo :=
  [{ devId := 0, name := "speakers", isDefault := false },
   { devId := 1, name := "headset", isDefault := true }]

/-- Witness for `default_device_fallback` at `infos0`. -/
theorem default_device_fallback_witness :
    infos0 ≠ [] ∧
    ((getDefaultAudioDevice infos0).isSome = true ∧
     ((infos0.any fun d => d.isDefault) = true →
       (getDefaultAudioDevice infos0).all (fun d => d.isDefault) = true) ∧
     ((infos0.any fun d => d.isDefault) = false →
       getDefaultAudioDevice infos0 = infos0.head?)) :=
  ⟨by decide, default_device_fallback infos0 (by decide)⟩

end EzAudio
